import Mathlib

/-!
Shallow embedding of the intercom broadcast-session client
(`cmd/client/intercom/intercom.go`) and verification of its
specification claims.

Modelling conventions:
* a `gocv.Mat` is a `Frame`: explicit row/column counts plus a total
  pixel function `Nat → Nat → Int` (`GetIntAt3`/`SetIntAt3` on channel 0);
* `time.Time` is a `Nat` count of milliseconds;
* `float64` arithmetic (only used for the aspect-ratio scale computation)
  is modelled by exact rational arithmetic over `ℚ`;
* external handles (window, webcam, grpc stream, portaudio streams) carry
  no session state and are dropped; their fallible operations become
  explicit boolean/`Option` parameters of the functions that call them;
* a Go `panic` is modelled by an explicit `panicked` outcome: an
  unrecovered panic in any goroutine aborts the whole process.
-/

/-- Pixel grid modelling a `gocv.Mat`: `rows × cols`, with a total pixel
function (reads outside the bounds are given by the same function; the
bounds themselves are tracked by `rows`/`cols`). -/
structure Frame where
  rows : Nat
  cols : Nat
  px : Nat → Nat → Int

/-- `Mat.Empty()`: a mat with no elements. -/
def Frame.isEmpty (f : Frame) : Bool :=
  f.rows == 0 || f.cols == 0

/-- A zero-initialised mat, as produced by `gocv.NewMatWithSize`. -/
def blankFrame (r c : Nat) : Frame :=
  { rows := r, cols := c, px := fun _ _ => 0 }

/-- A mat holding the same value at every pixel (used for concrete tests). -/
def constFrame (r c : Nat) (v : Int) : Frame :=
  { rows := r, cols := c, px := fun _ _ => v }

/-- `SetIntAt3 i j 0 v`: write one pixel, leaving the dimensions unchanged. -/
def setPx (f : Frame) (i j : Nat) (v : Int) : Frame :=
  { f with px := fun a b => if a = i ∧ b = j then v else f.px a b }

/-- `gocv.Resize(src, &dst, Point{X: w, Y: h}, ...)`: the destination mat
gets `h` rows and `w` columns; the pixel content is modelled by
nearest-neighbour source sampling (the claims only depend on the
dimensions and on resizes of constant frames). -/
def resizeFrame (src : Frame) (w h : Nat) : Frame :=
  { rows := h, cols := w,
    px := fun i j => src.px (i * src.rows / h) (j * src.cols / w) }

-- Constants from the top of intercom.go (Go integer division).

def screenWidth : Nat := 1280 / 2
def screenHeight : Nat := 720 / 2

def outPreviewWidth : Nat := screenWidth / 4
def outPreviewHeight : Nat := screenHeight / 4
def outPreviewX : Nat := screenHeight - outPreviewHeight - (outPreviewHeight / 4)
def outPreviewY : Nat := screenWidth - outPreviewWidth - (outPreviewWidth / 4)

def inBroadcastWidth : Nat := screenWidth / 2
def inBroadcastHeight : Nat := screenHeight / 2
def inBroadcastX : Nat := screenHeight / 2 - inBroadcastHeight / 2 - inBroadcastHeight / 4
def inBroadcastY : Nat := screenWidth / 2 - inBroadcastWidth / 2 - inBroadcastWidth / 4

/-- The mutable fields of `intercomClient` that carry session state.
External handles (`window`, `webcam`, audio streams, grpc stream,
`context`, `deviceID`) are omitted: they hold no session-visible state. -/
structure ClientState where
  bgImg : Frame
  displayImg : Frame
  videoPreviewImg : Frame
  inBroadcastImg : Frame
  audioOutputCache : List (List Int)
  lastInBroadcastTime : Nat
  isReceivingBroadcast : Bool
  hasWebcamOn : Bool
  hasMicOn : Bool
  isPlayingAudio : Bool
  wantToBroadcast : Bool
  wantToQuit : Bool

/-- `CreateIntercomClient` followed by a successful `loadBackgroundImg`:
the preview mats are zero-initialised at their fixed sizes, the background
is the source image resized to the screen size, and `ResetDisplayImg`
copies it into the display mat.  Go zero values give the remaining fields. -/
def CreateIntercomClient (bg : Frame) : ClientState :=
  let bgScaled := resizeFrame bg screenWidth screenHeight
  { bgImg := bgScaled
    displayImg := bgScaled
    videoPreviewImg := blankFrame outPreviewHeight outPreviewWidth
    inBroadcastImg := blankFrame inBroadcastHeight inBroadcastWidth
    audioOutputCache := []
    lastInBroadcastTime := 0
    isReceivingBroadcast := false
    hasWebcamOn := false
    hasMicOn := false
    isPlayingAudio := false
    wantToBroadcast := false
    wantToQuit := false }

/-- `ResetDisplayImg`: `displayImg = bgImg.Clone()`. -/
def ResetDisplayImg (s : ClientState) : ClientState :=
  { s with displayImg := s.bgImg }

/-- `hasIncomingBroadcast` (lines 346–356): returns whether the inbound
broadcast is live at time `now` and the (possibly updated) state.
`time.Now().After(last.Add(300ms))` is the strict test `last + 300 < now`;
when it fires the receiving flag is cleared and the display reset. -/
def hasIncomingBroadcast (s : ClientState) (now : Nat) : Bool × ClientState :=
  if !s.isReceivingBroadcast then (false, s)
  else if s.lastInBroadcastTime + 300 < now then
    (false, ResetDisplayImg { s with isReceivingBroadcast := false })
  else (true, s)

/-- The spec's `recordInbound(now)`: receiving a non-empty inbound image
sets `lastInBroadcastTime` (line 139) and `isReceivingBroadcast`
(lines 177–180). -/
def recordInbound (s : ClientState) (now : Nat) : ClientState :=
  { s with lastInBroadcastTime := now, isReceivingBroadcast := true }

-- Scaling (processBroadcastImage lines 182–185, sendVideoCapture 320–323).

/-- Division of rationals, `(a/b) / (c/d) = (a*d) / (b*c)`, written via
`Rat.divInt` so the kernel can evaluate it (`Rat.inv` is irreducible);
it agrees with `Rat.div`, including the `x / 0 = 0` convention. -/
def ratDiv (x y : Rat) : Rat :=
  Rat.divInt (x.num * y.den) (x.den * y.num)

/-- `int(math.Floor(targetW / screenCapRatio))` where
`screenCapRatio = float64(w) / float64(h)` (`Size()[1] / Size()[0]`),
with `float64` modelled as exact rationals.  The value is non-negative,
so Go's truncating `int` conversion is `Int.toNat`. -/
def scaledHeightFor (targetW w h : Nat) : Nat :=
  (Rat.floor (ratDiv (mkRat targetW 1) (ratDiv (mkRat w 1) (mkRat h 1)))).toNat

/-- `processBroadcastImage` (lines 158–186).  `decoded` is the result of
`gocv.NewMatFromBytes` on the received image message: `none` models a
decode error. -/
def processBroadcastImage (s : ClientState) (decoded : Option Frame) : ClientState :=
  match decoded with
  | none => ResetDisplayImg s
  | some serverImg =>
    if serverImg.isEmpty then
      ResetDisplayImg { s with isReceivingBroadcast := false }
    else
      let s1 := if !s.isReceivingBroadcast then { s with isReceivingBroadcast := true } else s
      let scaled := resizeFrame serverImg inBroadcastWidth
        (scaledHeightFor inBroadcastWidth serverImg.cols serverImg.rows)
      { s1 with inBroadcastImg := scaled }

/-- Go `panic` vs. normal completion.  An unrecovered panic in any
goroutine aborts the entire process, so `panicked` means the whole
session terminates. -/
inductive PlayResult where
  | ok : PlayResult
  | panicked : String → PlayResult
deriving DecidableEq

/-- The `playAudio` drain loop (lines 202–217): while the cache is
non-empty, dequeue the head chunk and write it to the output stream.
`writeOk c = false` models `audioOutputStream.Write()` failing for chunk
`c`, which panics (`"playback err"`).  Returns the chunks successfully
written (in write order), the cache left behind, the final
`isPlayingAudio` flag, and the outcome. -/
def playAudioLoop (writeOk : List Int → Bool) :
    List (List Int) → List (List Int) × List (List Int) × Bool × PlayResult
  | [] => ([], [], false, .ok)
  | c :: rest =>
    if writeOk c then
      let r := playAudioLoop writeOk rest
      (c :: r.1, r.2.1, r.2.2.1, r.2.2.2)
    else ([], rest, true, .panicked "playback err")

/-- `playAudio` (lines 188–218): open the default output stream
(`openOk = false` models `portaudio.OpenDefaultStream` failing, which
panics with `"audio out err"`), then drain the cache.  Returns the state,
the chunks written to the device in order, and the outcome. -/
def playAudio (openOk : Bool) (writeOk : List Int → Bool) (s : ClientState) :
    ClientState × List (List Int) × PlayResult :=
  if !openOk then (s, [], .panicked "audio out err")
  else
    let r := playAudioLoop writeOk s.audioOutputCache
    ({ s with audioOutputCache := r.2.1, isPlayingAudio := r.2.2.1 }, r.1, r.2.2.2)

/-- The audio branch of `handleGrpcStreamRec` (lines 147–154): append the
samples at the tail of the cache; if no playback task is active, mark one
active (and spawn `playAudio`). -/
def enqueueAudio (s : ClientState) (samples : List Int) : ClientState :=
  let s1 := { s with audioOutputCache := s.audioOutputCache ++ [samples] }
  if s1.isPlayingAudio then s1 else { s1 with isPlayingAudio := true }

/-- One `Recv` result seen by the dispatcher loop.  For an image message
the external `gocv.NewMatFromBytes` decode is carried as `Option Frame`
(`none` = decode error). -/
inductive StreamEvent where
  | eof : StreamEvent
  | streamError : StreamEvent
  | imageMsg : Option Frame → StreamEvent
  | audioMsg : List Int → StreamEvent

/-- Outcome of one dispatcher iteration: loop again with this state, or
panic (which aborts the process — `panic(err)` on a stream error). -/
inductive StepOutcome where
  | continued : ClientState → StepOutcome
  | panicked : ClientState → StepOutcome

/-- One iteration of `handleGrpcStreamRec` (lines 128–156).  On `io.EOF`
the display is reset and the loop continues; any other receive error
panics; otherwise `lastInBroadcastTime` is set (line 139) and the payload
is dispatched. -/
def handleGrpcStreamRecStep (s : ClientState) (ev : StreamEvent) (now : Nat) : StepOutcome :=
  match ev with
  | .eof => .continued (ResetDisplayImg s)
  | .streamError => .panicked s
  | .imageMsg decoded =>
      .continued (processBroadcastImage { s with lastInBroadcastTime := now } decoded)
  | .audioMsg samples =>
      .continued (enqueueAudio { s with lastInBroadcastTime := now } samples)

/-- The `startAudioBroadcast` loop (lines 234–267), driven by the per-
iteration values of `ctx.Done()` and `c.wantToBroadcast` (first and second
component of each input pair).  The `break` in
`select { case <-c.context.Done(): break }` terminates only the `select`
statement (Go spec), not the `for` loop, so the first component is
ignored by the loop control: only `!wantToBroadcast` exits.  `none` means
the loop was still running after consuming all inputs. -/
def startAudioBroadcastLoop : List (Bool × Bool) → ClientState → Option ClientState
  | [], _ => none
  | (_ctxDone, wantB) :: rest, s =>
    if !wantB then
      -- exit the for loop: audioInStream.Stop(); c.hasMicOn = false
      some { s with hasMicOn := false }
    else
      -- audioInStream.Read(); go send(...) — no session-state change
      startAudioBroadcastLoop rest s

/-- `startAudioBroadcast` (lines 220–273): sets `hasMicOn` on entry, then
runs the loop. -/
def startAudioBroadcast (inputs : List (Bool × Bool)) (s : ClientState) : Option ClientState :=
  startAudioBroadcastLoop inputs { s with hasMicOn := true }

/-- `sendVideoCapture` (lines 275–324).  `openOk` models
`gocv.OpenVideoCapture` succeeding, `capture` is the frame read from the
webcam (an empty mat when the read fails or the device ended), and
`sendOk` models `intercomServer.Send` succeeding. -/
def sendVideoCapture (s : ClientState) (openOk sendOk : Bool) (capture : Frame) : ClientState :=
  if !s.hasWebcamOn && !openOk then s
  else
    let s1 := if s.hasWebcamOn then s else { s with hasWebcamOn := true }
    if capture.isEmpty then
      if s1.hasWebcamOn then { s1 with hasWebcamOn := false } else s1
    else if !sendOk then s1
    else
      let preview := resizeFrame capture outPreviewWidth
        (scaledHeightFor outPreviewWidth capture.cols capture.rows)
      { s1 with videoPreviewImg := preview }

-- The draw loops (lines 326–344).

/-- Column of the outbound preview read for overlay column `y`
(line 338: `c.videoPreviewImg.GetIntAt3(x, outPreviewWidth-y, 0)`). -/
def mirrorReadCol (y : Nat) : Nat := outPreviewWidth - y

/-- Inner loop of the inbound overlay at row `x`: writes columns
`0 ≤ y < n` of `src` row `x` into the display at the fixed offset. -/
def writeInboundRow (d src : Frame) (x : Nat) : Nat → Frame
  | 0 => d
  | n + 1 =>
    setPx (writeInboundRow d src x n) (x + inBroadcastX) (n + inBroadcastY) (src.px x n)

/-- Outer loop of the inbound overlay: rows `0 ≤ x < n`, each over
`inBroadcastWidth` columns. -/
def overlayInboundAux (d src : Frame) : Nat → Frame
  | 0 => d
  | n + 1 => writeInboundRow (overlayInboundAux d src n) src n inBroadcastWidth

/-- Lines 327–333: overlay the inbound preview, rows bounded by
`c.inBroadcastImg.Size()[0]`. -/
def overlayInbound (d src : Frame) : Frame :=
  overlayInboundAux d src src.rows

/-- Inner loop of the outbound overlay at row `x`: overlay column `y`
reads source column `mirrorReadCol y = outPreviewWidth - y`. -/
def writeMirrorRow (d src : Frame) (x : Nat) : Nat → Frame
  | 0 => d
  | n + 1 =>
    setPx (writeMirrorRow d src x n) (x + outPreviewX) (n + outPreviewY)
      (src.px x (mirrorReadCol n))

/-- Outer loop of the outbound overlay: rows `0 ≤ x < n`, each over
`outPreviewWidth` columns. -/
def overlayOutboundAux (d src : Frame) : Nat → Frame
  | 0 => d
  | n + 1 => writeMirrorRow (overlayOutboundAux d src n) src n outPreviewWidth

/-- Lines 335–341: overlay the mirrored outbound preview, rows bounded by
`c.videoPreviewImg.Size()[0]`. -/
def overlayOutbound (d src : Frame) : Frame :=
  overlayOutboundAux d src src.rows

/-- `draw` (lines 326–344): if the inbound broadcast is live, write the
inbound preview into the display mat in place; if the webcam is on, write
the mirrored outbound preview; then `IMShow` presents `displayImg` (the
presented frame is the `displayImg` of the returned state). -/
def draw (s : ClientState) (now : Nat) : ClientState :=
  let r := hasIncomingBroadcast s now
  let s1 := r.2
  let s2 :=
    if r.1 then { s1 with displayImg := overlayInbound s1.displayImg s1.inBroadcastImg }
    else s1
  if s2.hasWebcamOn then
    { s2 with displayImg := overlayOutbound s2.displayImg s2.videoPreviewImg }
  else s2

/-- `shutdown` (lines 95–107): closes the webcam if on; the mat and
window closes release external resources only. -/
def shutdown (s : ClientState) : ClientState :=
  if s.hasWebcamOn then { s with hasWebcamOn := false } else s

/-- The external inputs consumed by one iteration of the `Run` loop
(lines 367–405). -/
structure TickInput where
  ctxDone : Bool
  key : Int
  camOpenOk : Bool
  camRead : Frame
  sendOk : Bool
  now : Nat

/-- One iteration of the main `Run` loop (lines 367–405): poll
cancellation (which returns from `Run`), poll one key (`27` toggles quit,
`32` toggles broadcasting), then either quit, drive the video capture and
ensure the audio-broadcast task is running (its first statement sets
`hasMicOn`), or clear the mic flag and close the webcam — and finally
`draw`. -/
def runTick (s : ClientState) (inp : TickInput) : ClientState :=
  if inp.ctxDone then { s with wantToQuit := true }
  else
    let s1 :=
      if inp.key = 27 then { s with wantToQuit := true }
      else if inp.key = 32 then { s with wantToBroadcast := !s.wantToBroadcast }
      else s
    if s1.wantToQuit then shutdown s1
    else
      let s2 :=
        if s1.wantToBroadcast then
          let sv := sendVideoCapture s1 inp.camOpenOk inp.sendOk inp.camRead
          if sv.hasMicOn then sv else { sv with hasMicOn := true }
        else
          let sm := if s1.hasMicOn then { s1 with hasMicOn := false } else s1
          if sm.hasWebcamOn then ResetDisplayImg { sm with hasWebcamOn := false } else sm
      draw s2 inp.now

-- Concrete fixtures used by witness and counterexample theorems.

/-- A 720×1280 all-zero background source image. -/
def testBg : Frame := blankFrame 720 1280

/-- A freshly created client with the test background. -/
def baseClient : ClientState := CreateIntercomClient testBg

/-- Tick 1: space pressed (start broadcasting); the webcam opens and
returns a 1×160 frame of constant value 5, which is sent and becomes the
outbound preview (scaled height `floor(160/(160/1)) = 1`). -/
def cexT1 : TickInput :=
  { ctxDone := false, key := 32, camOpenOk := true,
    camRead := constFrame 1 160 5, sendOk := true, now := 0 }

/-- Tick 2: no key; the webcam read comes back empty, so the capture step
closes the webcam without resetting the display. -/
def cexT2 : TickInput :=
  { ctxDone := false, key := -1, camOpenOk := true,
    camRead := blankFrame 0 0, sendOk := true, now := 0 }

/-- Tick 3: space pressed again (stop broadcasting); the webcam is
already off, so the not-broadcasting branch performs no display reset. -/
def cexT3 : TickInput :=
  { ctxDone := false, key := 32, camOpenOk := true,
    camRead := blankFrame 0 0, sendOk := true, now := 0 }

/-- The state after the three ticks above. -/
def cexS3 : ClientState := runTick (runTick (runTick baseClient cexT1) cexT2) cexT3

/-- Client whose display mat holds stale content while the webcam is on. -/
def idleResetState : ClientState :=
  { baseClient with hasWebcamOn := true, displayImg := constFrame 360 640 9 }

/-- A tick with no key press, no cancellation, and an empty webcam read. -/
def idleResetInput : TickInput :=
  { ctxDone := false, key := -1, camOpenOk := true,
    camRead := blankFrame 0 0, sendOk := true, now := 0 }

/-- Client that is currently receiving an inbound broadcast. -/
def receivingClient : ClientState := { baseClient with isReceivingBroadcast := true }

/-- Client with two queued audio chunks. -/
def queuedClient : ClientState := { baseClient with audioOutputCache := [[1, 2], [3]] }

/-- Client with the webcam on and a 1×160 outbound preview of value 5. -/
def previewClient : ClientState :=
  { baseClient with hasWebcamOn := true, videoPreviewImg := constFrame 1 160 5 }

/-- Client with the webcam on and a non-blank outbound preview. -/
def staleClient : ClientState :=
  { baseClient with hasWebcamOn := true, videoPreviewImg := constFrame 1 160 7 }

/-- A 720p source image (value 3). -/
def img720p : Frame := constFrame 720 1280 3

/-- A 480p capture frame (value 4). -/
def cap480p : Frame := constFrame 480 640 4

example : scaledHeightFor 320 1280 720 = 180 := by decide
example : scaledHeightFor 160 640 480 = 120 := by decide
example : scaledHeightFor 160 160 1 = 1 := by decide

-- Pointwise characterisation of the overlay loops.

theorem setPx_px (f : Frame) (i j a b : Nat) (v : Int) :
    (setPx f i j v).px a b = if a = i ∧ b = j then v else f.px a b := rfl

theorem writeMirrorRow_px (d src : Frame) (x n a b : Nat) :
    (writeMirrorRow d src x n).px a b =
      if a = x + outPreviewX ∧ outPreviewY ≤ b ∧ b < outPreviewY + n then
        src.px x (mirrorReadCol (b - outPreviewY))
      else d.px a b := by
  induction n with
  | zero =>
    simp only [writeMirrorRow]
    rw [if_neg]
    intro h
    omega
  | succ n ih =>
    simp only [writeMirrorRow, setPx_px]
    rw [ih]
    by_cases h1 : a = x + outPreviewX ∧ b = n + outPreviewY
    · rw [if_pos h1, if_pos ⟨h1.1, by omega, by omega⟩]
      have e : b - outPreviewY = n := by omega
      rw [e]
    · rw [if_neg h1]
      by_cases h2 : a = x + outPreviewX ∧ outPreviewY ≤ b ∧ b < outPreviewY + n
      · rw [if_pos h2, if_pos ⟨h2.1, h2.2.1, by omega⟩]
      · rw [if_neg h2, if_neg]
        intro h3
        by_cases hb : b = n + outPreviewY
        · exact h1 ⟨h3.1, hb⟩
        · exact h2 ⟨h3.1, h3.2.1, by omega⟩

theorem overlayOutboundAux_px (d src : Frame) (n a b : Nat) :
    (overlayOutboundAux d src n).px a b =
      if outPreviewX ≤ a ∧ a < outPreviewX + n ∧
          outPreviewY ≤ b ∧ b < outPreviewY + outPreviewWidth then
        src.px (a - outPreviewX) (mirrorReadCol (b - outPreviewY))
      else d.px a b := by
  induction n with
  | zero =>
    simp only [overlayOutboundAux]
    rw [if_neg]
    intro h
    omega
  | succ n ih =>
    simp only [overlayOutboundAux]
    rw [writeMirrorRow_px, ih]
    by_cases h1 : a = n + outPreviewX ∧ outPreviewY ≤ b ∧ b < outPreviewY + outPreviewWidth
    · rw [if_pos h1, if_pos ⟨by omega, by omega, h1.2.1, h1.2.2⟩]
      have e : a - outPreviewX = n := by omega
      rw [e]
    · rw [if_neg h1]
      by_cases h2 : outPreviewX ≤ a ∧ a < outPreviewX + n ∧
          outPreviewY ≤ b ∧ b < outPreviewY + outPreviewWidth
      · rw [if_pos h2, if_pos ⟨h2.1, by omega, h2.2.2.1, h2.2.2.2⟩]
      · rw [if_neg h2, if_neg]
        intro h3
        by_cases ha : a = n + outPreviewX
        · exact h1 ⟨ha, h3.2.2.1, h3.2.2.2⟩
        · exact h2 ⟨h3.1, by omega, h3.2.2.1, h3.2.2.2⟩

theorem overlayOutbound_px_in (d src : Frame) (x y : Nat)
    (hx : x < src.rows) (hy : y < outPreviewWidth) :
    (overlayOutbound d src).px (x + outPreviewX) (y + outPreviewY)
      = src.px x (mirrorReadCol y) := by
  unfold overlayOutbound
  rw [overlayOutboundAux_px,
    if_pos ⟨by omega, by omega, by omega, by omega⟩]
  have e1 : x + outPreviewX - outPreviewX = x := by omega
  have e2 : y + outPreviewY - outPreviewY = y := by omega
  rw [e1, e2]

-- `hasIncomingBroadcast` only touches `isReceivingBroadcast`/`displayImg`.

theorem hasIncomingBroadcast_hasWebcamOn (s : ClientState) (now : Nat) :
    (hasIncomingBroadcast s now).2.hasWebcamOn = s.hasWebcamOn := by
  unfold hasIncomingBroadcast
  split
  · rfl
  · split <;> rfl

theorem hasIncomingBroadcast_videoPreviewImg (s : ClientState) (now : Nat) :
    (hasIncomingBroadcast s now).2.videoPreviewImg = s.videoPreviewImg := by
  unfold hasIncomingBroadcast
  split
  · rfl
  · split <;> rfl

/-- **C6** — In the displayed outbound preview overlay, column `y` of the
preview equals source column `outPreviewWidth - y` (= `160 - y`) of the
scaled outbound preview frame — horizontally mirrored, column index
reversed — for every row of the preview. -/
theorem draw_outbound_preview_mirrored (s : ClientState) (now x y : Nat)
    (hw : s.hasWebcamOn = true) (hx : x < s.videoPreviewImg.rows)
    (hy : y < outPreviewWidth) :
    (draw s now).displayImg.px (x + outPreviewX) (y + outPreviewY)
      = s.videoPreviewImg.px x (outPreviewWidth - y) := by
  have hwb := hasIncomingBroadcast_hasWebcamOn s now
  have hvp := hasIncomingBroadcast_videoPreviewImg s now
  rw [hw] at hwb
  simp only [draw]
  set r := hasIncomingBroadcast s now with hr
  set s2 := if r.1 then
      { r.2 with displayImg := overlayInbound r.2.displayImg r.2.inBroadcastImg }
    else r.2 with hs2
  have h2 : s2.hasWebcamOn = true := by
    rw [hs2]
    split <;> exact hwb
  have h3 : s2.videoPreviewImg = s.videoPreviewImg := by
    rw [hs2]
    split <;> exact hvp
  rw [if_pos h2]
  show (overlayOutbound s2.displayImg s2.videoPreviewImg).px (x + outPreviewX) (y + outPreviewY) = _
  rw [h3]
  exact overlayOutbound_px_in _ _ _ _ hx hy

/-- **C6 witness** — concrete instance: with the webcam on and a 1×160
preview of constant value 5, overlay column 3 of row 0 reads preview
column `160 - 3`. -/
theorem draw_outbound_preview_mirrored_witness :
    (draw previewClient 0).displayImg.px (0 + outPreviewX) (3 + outPreviewY)
      = previewClient.videoPreviewImg.px 0 (outPreviewWidth - 3) :=
  draw_outbound_preview_mirrored previewClient 0 0 3 rfl (by decide) (by decide)

/-- **C10** — the mirrored outbound overlay reads, at overlay column
`y = 0`, source column `outPreviewWidth - 0 = outPreviewWidth = 160`,
which is NOT a valid column index of the outbound preview mat (the
preview has `outPreviewWidth` columns, valid indices `0..159`): the read
is out of bounds, contradicting the claimed range `[0, outPreviewWidth-1]`. -/
theorem draw_mirror_column_out_of_bounds :
    mirrorReadCol 0 = outPreviewWidth ∧
      ¬ mirrorReadCol 0 < baseClient.videoPreviewImg.cols ∧
      baseClient.videoPreviewImg.cols = outPreviewWidth := by
  refine ⟨rfl, by decide, by decide⟩

-- C1: the Display Frame is NOT recomputed fresh each tick.

/-- **C1 counterexample** — a concrete three-tick execution from startup:
start broadcasting (the overlay writes the webcam preview into the
display mat in place), lose the webcam (empty read: the capture step
closes it without resetting the display), then stop broadcasting (the
not-broadcasting branch skips the reset because the webcam is already
off).  The resulting tick has `broadcasting = false` and
`receivingInbound = false`, yet the frame presented by `draw` still
holds the stale overlay pixel (value 5) and differs from the Background
Frame (value 0 there). -/
theorem display_frame_stale_after_webcam_loss :
    cexS3.wantToBroadcast = false ∧ cexS3.isReceivingBroadcast = false ∧
      cexS3.displayImg ≠ cexS3.bgImg := by
  set_option maxRecDepth 10000 in
  refine ⟨by decide, by decide, fun h => ?_⟩
  have hpx := congrArg (fun f => f.px 248 440) h
  set_option maxRecDepth 10000 in
  exact absurd hpx (by decide)

/-- **C1 (amended)** — the Display Frame is mutated in place across
ticks and reset to the Background only at explicit reset events; on any
tick in which broadcasting is false, `receivingInbound` is false, no quit
or cancellation occurs, and the webcam is still open at tick start (so
the not-broadcasting branch closes it and resets the display), the frame
presented by `draw` equals the Background Frame exactly. -/
theorem runTick_idle_reset_presents_background (s : ClientState) (inp : TickInput)
    (hc : inp.ctxDone = false) (hk27 : inp.key ≠ 27) (hk32 : inp.key ≠ 32)
    (hq : s.wantToQuit = false) (hb : s.wantToBroadcast = false)
    (hr : s.isReceivingBroadcast = false) (hw : s.hasWebcamOn = true) :
    (runTick s inp).displayImg = s.bgImg := by
  simp only [runTick, hc, if_false, Bool.false_eq_true]
  rw [if_neg hk27, if_neg hk32, if_neg (by rw [hq]; exact Bool.false_ne_true)]
  rw [if_neg (by rw [hb]; exact Bool.false_ne_true)]
  by_cases hm : s.hasMicOn = true
  · rw [if_pos hm, if_pos (by exact hw)]
    simp [draw, hasIncomingBroadcast, ResetDisplayImg, hr]
  · rw [if_neg hm, if_pos (by exact hw)]
    simp [draw, hasIncomingBroadcast, ResetDisplayImg, hr]

/-- **C1 witness** — concrete instance of the amended theorem: a tick on
a state with a stale display mat but the webcam open presents exactly the
background. -/
theorem runTick_idle_reset_presents_background_witness :
    (runTick idleResetState idleResetInput).displayImg = idleResetState.bgImg :=
  runTick_idle_reset_presents_background idleResetState idleResetInput rfl
    (by decide) (by decide) rfl rfl rfl rfl

-- C2: liveness timing.

/-- **C2** — after `recordInbound(t0)` (the last inbound record), the
liveness check at `now` returns true iff `receivingInbound` is true and
`now - t0 ≤ 300` ms; when the threshold is exceeded it clears
`receivingInbound` and resets the Display Frame to the Background;
concretely `isLive(t0+299)` is true (leaving the state unchanged) and
`isLive(t0+301)` is false, the latter call performing the reset. -/
theorem recordInbound_liveness_timing (s : ClientState) (t0 now : Nat) :
    ((hasIncomingBroadcast (recordInbound s t0) now).1 = true ↔
      ((recordInbound s t0).isReceivingBroadcast = true ∧ now - t0 ≤ 300)) ∧
    (300 < now - t0 →
      (hasIncomingBroadcast (recordInbound s t0) now).2.isReceivingBroadcast = false ∧
      (hasIncomingBroadcast (recordInbound s t0) now).2.displayImg
        = (recordInbound s t0).bgImg) ∧
    (hasIncomingBroadcast (recordInbound s t0) (t0 + 299)).1 = true ∧
    (hasIncomingBroadcast (recordInbound s t0) (t0 + 299)).2 = recordInbound s t0 ∧
    (hasIncomingBroadcast (recordInbound s t0) (t0 + 301)).1 = false ∧
    (hasIncomingBroadcast (recordInbound s t0) (t0 + 301)).2.isReceivingBroadcast = false ∧
    (hasIncomingBroadcast (recordInbound s t0) (t0 + 301)).2.displayImg
      = (recordInbound s t0).bgImg := by
  have h299 : ¬ t0 + 300 < t0 + 299 := by omega
  have h301 : t0 + 300 < t0 + 301 := by omega
  refine ⟨?_, fun hgt => ?_, ?_, ?_, ?_, ?_, ?_⟩
  · by_cases h : t0 + 300 < now <;>
      simp [hasIncomingBroadcast, recordInbound, ResetDisplayImg, h] <;> omega
  · have h : t0 + 300 < now := by omega
    simp [hasIncomingBroadcast, recordInbound, ResetDisplayImg, h]
  · simp [hasIncomingBroadcast, recordInbound, h299]
  · simp [hasIncomingBroadcast, recordInbound, h299]
  · simp [hasIncomingBroadcast, recordInbound, h301]
  · simp [hasIncomingBroadcast, recordInbound, ResetDisplayImg, h301]
  · simp [hasIncomingBroadcast, recordInbound, ResetDisplayImg, h301]

/-- **C2 witness** — concrete instance at `t0 = 1000`, `now = 1301`:
the liveness check returns false and performs the reset. -/
theorem recordInbound_liveness_timing_witness :
    (hasIncomingBroadcast (recordInbound baseClient 1000) (1000 + 301)).1 = false ∧
    (hasIncomingBroadcast (recordInbound baseClient 1000) (1000 + 299)).1 = true := by
  have h := recordInbound_liveness_timing baseClient 1000 1301
  exact ⟨h.2.2.2.2.1, h.2.2.1⟩

-- C3: FIFO playback.

theorem enqueueAudio_cache (s : ClientState) (c : List Int) :
    (enqueueAudio s c).audioOutputCache = s.audioOutputCache ++ [c] := by
  simp only [enqueueAudio]
  split <;> rfl

theorem foldl_enqueueAudio_cache (L : List (List Int)) (s : ClientState) :
    (L.foldl enqueueAudio s).audioOutputCache = s.audioOutputCache ++ L := by
  induction L generalizing s with
  | nil => simp
  | cons c L ih =>
    simp only [List.foldl_cons]
    rw [ih, enqueueAudio_cache]
    simp

theorem playAudioLoop_ok (cache : List (List Int)) :
    playAudioLoop (fun _ => true) cache = (cache, [], false, PlayResult.ok) := by
  induction cache with
  | nil => rfl
  | cons c rest ih => simp [playAudioLoop, ih]

/-- **C3** — for any sequence of chunks enqueued (in order) while
playback is idle, the playback task writes them to the audio output in
exactly the enqueue order, leaves the queue empty, terminates normally,
and clears the active-playback flag. -/
theorem playAudio_fifo (s : ClientState) (L : List (List Int))
    (hq : s.audioOutputCache = []) (_hidle : s.isPlayingAudio = false) :
    (playAudio true (fun _ => true) (L.foldl enqueueAudio s)).2.1 = L ∧
    (playAudio true (fun _ => true) (L.foldl enqueueAudio s)).1.isPlayingAudio = false ∧
    (playAudio true (fun _ => true) (L.foldl enqueueAudio s)).1.audioOutputCache = [] ∧
    (playAudio true (fun _ => true) (L.foldl enqueueAudio s)).2.2 = PlayResult.ok := by
  have hc : (L.foldl enqueueAudio s).audioOutputCache = L := by
    rw [foldl_enqueueAudio_cache, hq, List.nil_append]
  simp [playAudio, hc, playAudioLoop_ok]

/-- **C3 witness** — two chunks enqueued from the fresh (idle) client are
written back in exactly their enqueue order. -/
theorem playAudio_fifo_witness :
    (playAudio true (fun _ => true)
        (([[1, 2], [3]] : List (List Int)).foldl enqueueAudio baseClient)).2.1
      = [[1, 2], [3]] :=
  (playAudio_fifo baseClient [[1, 2], [3]] rfl rfl).1

-- C4: end-of-stream handling.

/-- **C4 counterexample** — on a state that is currently receiving, the
dispatcher's `io.EOF` branch resets the display and continues, but it
leaves `isReceivingBroadcast = true`: end-of-stream does NOT force
`receivingInbound` to false, contrary to the claim. -/
theorem eof_leaves_receiving_flag :
    handleGrpcStreamRecStep receivingClient StreamEvent.eof 0
        = StepOutcome.continued (ResetDisplayImg receivingClient) ∧
      (ResetDisplayImg receivingClient).isReceivingBroadcast = true :=
  ⟨rfl, rfl⟩

/-- **C4 (amended)** — when the dispatcher receives the end-of-stream
indicator (`io.EOF`), it resets the Display Frame to the Background and
continues receiving (not fatal); it leaves `receivingInbound` unchanged
(the flag is cleared only by the liveness timer or by an empty decoded
inbound image). -/
theorem eof_resets_display_continues (s : ClientState) (now : Nat) :
    handleGrpcStreamRecStep s StreamEvent.eof now
        = StepOutcome.continued (ResetDisplayImg s) ∧
      (ResetDisplayImg s).displayImg = s.bgImg ∧
      (ResetDisplayImg s).isReceivingBroadcast = s.isReceivingBroadcast :=
  ⟨rfl, rfl, rfl⟩

-- C5: audio-output failure handling.

/-- **C5 counterexample** — when opening the audio output device fails,
`playAudio` does not continue the session without audio output: it
panics (`panic("audio out err: ...")`), and an unrecovered panic in a
goroutine aborts the entire process. -/
theorem playAudio_open_failure_aborts_process :
    (playAudio false (fun _ => true) queuedClient).2.2 ≠ PlayResult.ok := by
  decide

/-- **C5 (amended)** — if opening/configuring the audio output device
fails, or a device write fails mid-stream, `playAudio` panics, which
terminates the whole process (session state is not updated and the
session does not continue without audio output). -/
theorem playAudio_failure_panics (s : ClientState) (writeOk : List Int → Bool)
    (c : List Int) (rest : List (List Int))
    (hc : s.audioOutputCache = c :: rest) (hw : writeOk c = false) :
    playAudio false writeOk s = (s, [], PlayResult.panicked "audio out err") ∧
    (playAudio true writeOk s).2.2 = PlayResult.panicked "playback err" := by
  refine ⟨rfl, ?_⟩
  simp [playAudio, hc, playAudioLoop, hw]

/-- **C5 witness** — concrete instance on a client with queued chunks:
open failure and first-write failure both end in a panic. -/
theorem playAudio_failure_panics_witness :
    playAudio false (fun _ => false) queuedClient
        = (queuedClient, [], PlayResult.panicked "audio out err") ∧
      (playAudio true (fun _ => false) queuedClient).2.2
        = PlayResult.panicked "playback err" :=
  playAudio_failure_panics queuedClient (fun _ => false) [1, 2] [[3]] rfl rfl

-- C7: aspect-preserving scaling.

/-- **C7** — for every non-empty decoded source image, the inbound
preview is resized to the fixed width `inBroadcastWidth` with height
`scaledHeightFor inBroadcastWidth w h = ⌊targetW / (w/h)⌋`, and the
outbound preview likewise at width `outPreviewWidth`; a 1280×720 source
at inbound target width 320 yields scaled height 180. -/
theorem preview_scaled_height_floor (s : ClientState) (img cap : Frame)
    (himg : img.isEmpty = false) (hcap : cap.isEmpty = false) :
    (processBroadcastImage s (some img)).inBroadcastImg.rows
        = scaledHeightFor inBroadcastWidth img.cols img.rows ∧
    (processBroadcastImage s (some img)).inBroadcastImg.cols = inBroadcastWidth ∧
    (sendVideoCapture s true true cap).videoPreviewImg.rows
        = scaledHeightFor outPreviewWidth cap.cols cap.rows ∧
    (sendVideoCapture s true true cap).videoPreviewImg.cols = outPreviewWidth ∧
    scaledHeightFor inBroadcastWidth 1280 720 = 180 := by
  refine ⟨?_, ?_, ?_, ?_, by decide⟩
  · simp [processBroadcastImage, himg, resizeFrame]
  · simp [processBroadcastImage, himg, resizeFrame]
  · simp [sendVideoCapture, hcap, resizeFrame]
  · simp [sendVideoCapture, hcap, resizeFrame]

/-- **C7 witness** — a 720×1280 inbound image is scaled to
`scaledHeightFor 320 1280 720 = 180` rows at width 320. -/
theorem preview_scaled_height_floor_witness :
    (processBroadcastImage baseClient (some img720p)).inBroadcastImg.rows
        = scaledHeightFor inBroadcastWidth img720p.cols img720p.rows ∧
      scaledHeightFor inBroadcastWidth img720p.cols img720p.rows = 180 :=
  ⟨(preview_scaled_height_floor baseClient img720p cap480p rfl rfl).1, by decide⟩

-- C8: empty webcam read.

/-- **C8 counterexample** — on an empty read with the camera on, the
capture step leaves the outbound preview mat exactly as it was: it is
NOT reset (a reset preview would be the zero mat it was created as). -/
theorem sendVideoCapture_empty_keeps_preview :
    (sendVideoCapture staleClient true true (blankFrame 0 0)).videoPreviewImg
        = staleClient.videoPreviewImg ∧
      (sendVideoCapture staleClient true true (blankFrame 0 0)).videoPreviewImg
        ≠ blankFrame outPreviewHeight outPreviewWidth := by
  refine ⟨rfl, fun h => ?_⟩
  have hpx := congrArg (fun f => f.px 0 0) h
  exact absurd hpx (by decide)

/-- **C8 (amended)** — when the webcam read returns an empty frame, the
capture step closes the camera and clears the camera-on flag, and
changes nothing else: broadcasting, the display, and the (un-reset)
outbound preview are untouched, and the session continues. -/
theorem sendVideoCapture_empty_closes_webcam_only (s : ClientState) (o k : Bool)
    (f : Frame) (hf : f.isEmpty = true) :
    sendVideoCapture s o k f = { s with hasWebcamOn := false } := by
  obtain ⟨bg, disp, vp, ib, cache, last, recv, wcam, mic, play, wb, wq⟩ := s
  cases wcam <;> cases o <;> simp [sendVideoCapture, hf]

/-- **C8 witness** — concrete instance: an empty read on the webcam-on
client yields the same state with only `hasWebcamOn` cleared. -/
theorem sendVideoCapture_empty_closes_webcam_only_witness :
    sendVideoCapture staleClient true true (blankFrame 0 0)
      = { staleClient with hasWebcamOn := false } :=
  sendVideoCapture_empty_closes_webcam_only staleClient true true (blankFrame 0 0) rfl

-- C9: the audio broadcast loop and cancellation.

theorem startAudioBroadcastLoop_replicate (n : Nat) (s : ClientState) :
    startAudioBroadcastLoop (List.replicate n (true, true)) s = none := by
  induction n with
  | zero => rfl
  | succ n ih =>
    simp only [List.replicate_succ, startAudioBroadcastLoop, Bool.not_true,
      Bool.false_eq_true, if_false]
    exact ih

/-- **C9** — the audio broadcast loop does NOT terminate when the
session's cancellation signal fires: the `break` in the
`select { case <-ctx.Done(): break }` statement exits only the `select`,
so with the cancellation signal fired on every iteration but
`wantToBroadcast` still true the loop never exits (no trace length makes
it terminate); it exits only when `wantToBroadcast` becomes false, and
then the device is stopped and the mic-on flag cleared. -/
theorem audioBroadcast_ignores_cancellation :
    (∀ (s : ClientState) (n : Nat),
        startAudioBroadcast (List.replicate n (true, true)) s = none) ∧
    (∀ s : ClientState,
        startAudioBroadcast [(true, false)] s = some { s with hasMicOn := false }) := by
  constructor
  · intro s n
    exact startAudioBroadcastLoop_replicate n _
  · intro s
    rfl
